import Mathlib

/-!
Verification development for the blood-supply-management data generator
(`src/generate_datasets.py`) and its analytics helpers (`src/utils.py`).

The Python code is shallowly embedded: every random draw of the source
(`np.random.uniform`, `np.random.normal`, `np.random.pareto`, ...) becomes an
explicit oracle argument, machine floats become exact rationals, and
`datetime.now()` becomes an explicit day-number argument.  Each embedded
function mirrors the corresponding source function statement by statement.
-/

namespace BloodSupply

/-- Python `int()` applied to a rational: truncation toward zero
(`int(2.7) = 2`, `int(-2.7) = -2`). -/
def pyInt (q : ℚ) : ℤ := if 0 ≤ q then q.floor else q.ceil

/-! ## `generate_demand_timeseries` (generate_datasets.py lines 61-151) -/

/-- The calendar fields the source reads off each `pd.Timestamp`:
`date.dayofweek` (0 = Monday .. 6 = Sunday), `date.month`, `date.day`. -/
structure CalendarDay where
  dayOfWeek : ℕ
  month : ℕ
  day : ℕ
deriving DecidableEq, Inhabited

/-- `base_demand` dictionary of the source. -/
def BASE_DEMAND : List (String × ℚ) :=
  [("Packed RBC", 80), ("Platelets", 30),
   ("Fresh Frozen Plasma", 25), ("Cryoprecipitate", 10)]

/-- `BLOOD_TYPE_DISTRIBUTION` of generate_datasets.py. -/
def BLOOD_TYPE_DISTRIBUTION : List (String × ℚ) :=
  [("O+", 37/100), ("A+", 28/100), ("B+", 20/100), ("AB+", 5/100),
   ("O-", 6/100), ("A-", 25/1000), ("B-", 15/1000), ("AB-", 1/100)]

/-- The random draws the source makes for one (date, component) pair:
`noise` is the value of `np.random.normal(0, base*0.15)`, `spikeRoll` the
value of `np.random.random()`, `spikeFactor` the value of
`np.random.uniform(1.5, 2.5)`, and `typeNoise bt` the value of
`np.random.normal(0, 1)` drawn for blood type `bt`. -/
structure ComponentDraws where
  noise : ℚ
  spikeRoll : ℚ
  spikeFactor : ℚ
  typeNoise : String → ℚ

/-- The per-(date, component) demand computation of the source: base plus
noise, the weekend, summer, winter, year-end-holiday, Diwali and
emergency-spike multipliers in source order, then `max(1, int(demand))`. -/
def componentDemand (base : ℚ) (c : CalendarDay) (dr : ComponentDraws) : ℤ :=
  let d := base + dr.noise
  let d := if 5 ≤ c.dayOfWeek then d * (7/10) else d
  let d := if c.month ∈ [6, 7, 8] then d * (11/10) else d
  let d := if c.month ∈ [12, 1, 2] then d * (23/20) else d
  let d := if (c.month = 12 ∧ 20 ≤ c.day) ∨ (c.month = 1 ∧ c.day ≤ 5)
           then d * (5/4) else d
  let d := if c.month ∈ [10, 11] ∧ 15 ≤ c.day ∧ c.day ≤ 30 then d * (6/5) else d
  let d := if dr.spikeRoll < 1/50 then d * dr.spikeFactor else d
  max 1 (pyInt d)

/-- The per-blood-type split of the source:
`max(1, int(demand * proportion + np.random.normal(0, 1)))`. -/
def typeDemand (demand : ℤ) (proportion noise : ℚ) : ℤ :=
  max 1 (pyInt ((demand : ℚ) * proportion + noise))

/-- One row of the detailed demand table. -/
structure DemandRow where
  dayOfWeek : ℕ
  month : ℕ
  day : ℕ
  component : String
  blood_type : String
  demand_units : ℤ
  is_weekend : ℕ
  is_holiday_season : ℕ
deriving DecidableEq, Inhabited

/-- The detailed table built by `generate_demand_timeseries`: for every date
and every component, compute the component demand, then emit one row per
blood type with the split demand.  The random draws are supplied as an
oracle keyed by date and component name. -/
def generate_demand_detail (days : List CalendarDay)
    (draws : CalendarDay → String → ComponentDraws) : List DemandRow :=
  days.flatMap fun c =>
    BASE_DEMAND.flatMap fun cb =>
      let dr := draws c cb.1
      let demand := componentDemand cb.2 c dr
      BLOOD_TYPE_DISTRIBUTION.map fun bp =>
        { dayOfWeek := c.dayOfWeek, month := c.month, day := c.day,
          component := cb.1, blood_type := bp.1,
          demand_units := typeDemand demand bp.2 (dr.typeNoise bp.1),
          is_weekend := if 5 ≤ c.dayOfWeek then 1 else 0,
          is_holiday_season := if c.month ∈ [11, 12] then 1 else 0 }

/-! ## `generate_supply_data` (generate_datasets.py lines 282-318) -/

/-- One row of the supply table. -/
structure SupplyRow where
  demand_units : ℤ
  supply_units : ℤ
  utilized_units : ℤ
  wasted_units : ℤ
  utilization_rate : ℚ
  wastage_rate : ℚ
deriving DecidableEq

/-- The loop body of `generate_supply_data` for one daily-demand row:
`buffer` is the value drawn by `np.random.uniform(1.05, 1.20)` and
`expiry` the value drawn by `np.random.uniform(0.01, 0.05)`. -/
def mkSupplyRow (demand : ℤ) (buffer expiry : ℚ) : SupplyRow :=
  let supply := pyInt ((demand : ℚ) * buffer)
  let utilized := min supply demand
  let wasted := max 0 (supply - demand) + pyInt ((supply : ℚ) * expiry)
  { demand_units := demand,
    supply_units := supply,
    utilized_units := utilized,
    wasted_units := wasted,
    utilization_rate := if 0 < supply then (utilized : ℚ) / (supply : ℚ) else 0,
    wastage_rate := if 0 < supply then (wasted : ℚ) / (supply : ℚ) else 0 }

/-- Helper iterating `mkSupplyRow` over the demand rows, threading the index
into the per-row draw oracles. -/
def supplyRows : List ℤ → ℕ → (ℕ → ℚ) → (ℕ → ℚ) → List SupplyRow
  | [], _, _, _ => []
  | d :: ds, i, bs, es => mkSupplyRow d (bs i) (es i) :: supplyRows ds (i + 1) bs es

/-- `generate_supply_data`: one supply row per daily-demand row, with the
`i`-th row using the `i`-th buffer and expiry draws. -/
def generate_supply_data (demands : List ℤ) (buffers expiries : ℕ → ℚ) :
    List SupplyRow :=
  supplyRows demands 0 buffers expiries

/-! ## `generate_donor_registry` (generate_datasets.py lines 154-259)

Dates are modelled at day granularity as integer day numbers; the several
`datetime.now()` calls of one loop iteration are microseconds apart, so at
day granularity they are a single value `now` (a run that straddles
midnight aside).  `timedelta(days = k)` subtraction becomes integer
subtraction, and `.strftime` of a date is injective on day numbers, so two
records with different stored day numbers print as different CSV bytes. -/

/-- `DEFERRAL_REASONS` keys, in source order. -/
def DEFERRAL_REASONS : List String :=
  ["Low hemoglobin", "Non-medical reasons", "Blood pressure/pulse",
   "Travel history", "Medication", "Recent tattoo/piercing", "Other medical"]

/-- The random draws the source makes for one donor:
`firstRoll` is `np.random.random()` tested against 0.30, `firstMonths` the
value of `np.random.randint(0, 6)`, `paretoDraw` the value of
`np.random.pareto(1.5)`, `monthsPer` the value of `np.random.randint(3, 8)`,
`expDraw` the value of `np.random.exponential(6)`, `deferralRoll` is
`np.random.random()` tested against 0.15, `deferralIdx` the index chosen by
`np.random.choice` over the deferral reasons, and `hemoRoll` the
`np.random.random()` of the female low-hemoglobin override. -/
structure DonorDraws where
  age : ℕ
  gender : String
  bloodType : String
  city : String
  firstRoll : ℚ
  firstMonths : ℤ
  paretoDraw : ℚ
  monthsPer : ℤ
  expDraw : ℚ
  deferralRoll : ℚ
  deferralIdx : Fin 7
  hemoRoll : ℚ

/-- One row of the donor registry (contact strings produced by `faker`
are omitted: no claim depends on them). -/
structure DonorRecord where
  donor_id : ℕ
  age : ℕ
  gender : String
  blood_type : String
  city : String
  registration_date : ℤ
  last_donation_date : ℤ
  total_donations : ℤ
  total_volume_cc : ℤ
  months_since_first_donation : ℤ
  months_since_last_donation : ℤ
  availability_status : String
  is_first_time_donor : Bool
  has_deferral_history : Bool
  deferral_reason : Option String
deriving DecidableEq

/-- The loop body of `generate_donor_registry` for donor index `i`, given
the donor's random draws and the current day number `now`. -/
def mkDonor (i : ℕ) (d : DonorDraws) (now : ℤ) : DonorRecord :=
  let isFirst := d.firstRoll < 30/100
  let totalDonations : ℤ :=
    if isFirst then 1 else min (pyInt (d.paretoDraw * 3) + 2) 50
  let monthsFirst : ℤ :=
    if isFirst then d.firstMonths else min (totalDonations * d.monthsPer) 120
  let monthsLast : ℤ :=
    if isFirst then d.firstMonths else min (pyInt d.expDraw) monthsFirst
  let regDate := now - monthsFirst * 30
  let lastDonation := now - monthsLast * 30
  let daysSinceLast := now - lastDonation
  let hasDeferral := d.deferralRoll < 15/100
  { donor_id := i + 1,
    age := d.age,
    gender := d.gender,
    blood_type := d.bloodType,
    city := d.city,
    registration_date := regDate,
    last_donation_date := lastDonation,
    total_donations := totalDonations,
    total_volume_cc := totalDonations * 450,
    months_since_first_donation := monthsFirst,
    months_since_last_donation := monthsLast,
    availability_status := if 56 ≤ daysSinceLast then "Available" else "Not Eligible",
    is_first_time_donor := isFirst,
    has_deferral_history := hasDeferral,
    deferral_reason :=
      if hasDeferral then
        some (if d.gender = "Female" ∧ d.hemoRoll < 3/10
              then "Low hemoglobin"
              else DEFERRAL_REASONS.getD d.deferralIdx.1 "Low hemoglobin")
      else none }

/-- The rows built by the `for i in range(n_donors)` loop of
`generate_donor_registry` (empty when `n ≤ 0`, exactly as `range` is). -/
def donorRegistryRecords (n : ℤ) (draws : ℕ → DonorDraws) (now : ℤ) :
    List DonorRecord :=
  (List.range n.toNat).map fun i => mkDonor i (draws i) now

/-- `generate_donor_registry`.  The source performs no validation of
`n_donors` and its loop body contains no `raise`; every operation it
performs is total, so the embedding always returns `.ok`.  The explicit
error channel records that the Python function has no failure path. -/
def generate_donor_registry (n : ℤ) (draws : ℕ → DonorDraws) (now : ℤ) :
    Except String (List DonorRecord) :=
  .ok (donorRegistryRecords n draws now)

/-! ## `assign_rfm_segment` (utils.py lines 119-136) -/

/-- `assign_rfm_segment`: the source's if/elif chain over the row's
`R_Score`, `F_Score`, `M_Score` (the chain reads `m` but never tests it). -/
def assign_rfm_segment (r f m : ℤ) : String :=
  if r ≥ 4 ∧ f ≥ 4 then "Champions"
  else if r ≥ 3 ∧ f ≥ 3 then "Loyal"
  else if r ≥ 4 ∧ f = 1 then "New"
  else if r ≤ 2 ∧ f ≥ 3 then "At Risk"
  else if r ≤ 2 ∧ f ≤ 2 then "Hibernating"
  else "Potential"

/-- The segment decision tree exactly as the specification words it
(priority order over (R, F) alone). -/
def segmentSpec (r f : ℤ) : String :=
  if r ≥ 4 ∧ f ≥ 4 then "Champions"
  else if r ≥ 3 ∧ f ≥ 3 then "Loyal"
  else if r ≥ 4 ∧ f = 1 then "New"
  else if r ≤ 2 ∧ f ≥ 3 then "At Risk"
  else if r ≤ 2 ∧ f ≤ 2 then "Hibernating"
  else "Potential"

/-! ## `calculate_rfm_scores` (utils.py lines 92-116)

`pd.qcut(x, q=5, labels=ls, duplicates="drop")` is embedded following
pandas: compute the 0, 0.2, 0.4, 0.6, 0.8, 1 quantiles of the data with
numpy's linear interpolation, remove duplicate edges, and — because explicit
labels were passed — raise
`ValueError("Bin labels must be one fewer than the number of bin edges")`
whenever the deduplicated edge count is not `len(labels) + 1`.  On success a
value `v` is placed in the bucket found by `searchsorted(side="left")`,
with values equal to the lowest edge moved into the first bucket. -/

/-- Insertion of one element into a sorted rational list. -/
def insertSorted (x : ℚ) : List ℚ → List ℚ
  | [] => [x]
  | y :: ys => if x ≤ y then x :: y :: ys else y :: insertSorted x ys

/-- Insertion sort on rational lists (the sort numpy performs before
interpolating quantiles). -/
def sortList : List ℚ → List ℚ
  | [] => []
  | x :: xs => insertSorted x (sortList xs)

/-- numpy's linear-interpolation quantile of an already sorted list `s`:
position `h = q * (n - 1)`, lower index `⌊h⌋`, interpolate between the two
neighbouring order statistics. -/
def quantileAt (s : List ℚ) (q : ℚ) : ℚ :=
  let n := s.length
  let h := q * ((n : ℚ) - 1)
  let lo := h.floor.toNat
  let a := s.getD lo 0
  let b := s.getD (lo + 1) a
  a + (h - (lo : ℚ)) * (b - a)

/-- The six quantile fractions `np.linspace(0, 1, 6)` used by `q=5`. -/
def QUANTILES : List ℚ := [0, 1/5, 2/5, 3/5, 4/5, 1]

/-- Removal of duplicates from a sorted list (what `np.unique` does to the
monotone quantile-edge array under `duplicates="drop"`). -/
def dedupAdj : List ℚ → List ℚ
  | [] => []
  | [x] => [x]
  | x :: y :: rest =>
      if x = y then dedupAdj (y :: rest) else x :: dedupAdj (y :: rest)

/-- `bins.searchsorted(v, side="left")`: the first index whose edge is
`≥ v` (the list length when there is none). -/
def searchLeft (edges : List ℚ) (v : ℚ) : ℕ :=
  edges.findIdx fun e => decide (v ≤ e)

/-- The bucket label pandas assigns to value `v` for the given edges:
`searchsorted` index, values equal to the lowest edge forced into bucket 1,
then `labels[ids - 1]`. -/
def qcutLabel (edges : List ℚ) (labels : List ℤ) (v : ℚ) : ℤ :=
  let ids := searchLeft edges v
  let ids := if v = edges.getD 0 0 then 1 else ids
  labels.getD (ids - 1) 0

/-- `pd.qcut(xs, q=5, labels=labels, duplicates="drop")`. -/
def pdQcut (xs : List ℚ) (labels : List ℤ) : Except String (List ℤ) :=
  let edges := dedupAdj (QUANTILES.map (quantileAt (sortList xs)))
  if edges.length = labels.length + 1 then
    .ok (xs.map (qcutLabel edges labels))
  else
    .error "Bin labels must be one fewer than the number of bin edges"

/-- `Series.rank(method="first")`: ascending rank with ties broken by
position. -/
def rankFirst (xs : List ℚ) : List ℚ :=
  xs.enum.map fun p =>
    1 + ((xs.enum.countP fun jy =>
      decide (jy.2 < p.2 ∨ (jy.2 = p.2 ∧ jy.1 < p.1)) : ℕ) : ℚ)

/-- One scored output row of `calculate_rfm_scores`. -/
structure RfmScored where
  R_Score : ℤ
  F_Score : ℤ
  M_Score : ℤ
  RFM_Score : String
deriving DecidableEq

/-- `calculate_rfm_scores`: qcut the Recency column with inverted labels,
qcut the rank-transformed Frequency and Monetary columns with ascending
labels, and concatenate the three digits.  The first qcut that fails
raises, exactly as in the source. -/
def calculate_rfm_scores (recency frequency monetary : List ℚ) :
    Except String (List RfmScored) := do
  let r ← pdQcut recency [5, 4, 3, 2, 1]
  let f ← pdQcut (rankFirst frequency) [1, 2, 3, 4, 5]
  let m ← pdQcut (rankFirst monetary) [1, 2, 3, 4, 5]
  return (r.zip (f.zip m)).map fun t =>
    { R_Score := t.1, F_Score := t.2.1, M_Score := t.2.2,
      RFM_Score := toString t.1 ++ toString t.2.1 ++ toString t.2.2 }

/-! ## `forecast_accuracy_metrics` (utils.py lines 176-195)

Arithmetic is exact rational; the source's final step — `np.sqrt` for RMSE
and `round(x, 2)` for display — is a presentational transform applied after
the means are formed, so the RMSE is represented by its radicand
(`RMSE_sq`, the mean squared error) and the metrics are kept unrounded. -/

/-- `np.mean` of a rational list (0 on the empty list, where numpy yields
NaN — the claims below never touch that case on the MAPE side and the
equalities hold in either convention). -/
def listMean (l : List ℚ) : ℚ := l.sum / (l.length : ℚ)

/-- The boolean mask `y_true != 0`. -/
def boolMask (xs : List ℚ) : List Bool := xs.map fun x => decide (x ≠ 0)

/-- numpy boolean-mask indexing `xs[mask]`. -/
def applyMask (xs : List ℚ) (m : List Bool) : List ℚ :=
  ((xs.zip m).filter fun p => p.2).map fun p => p.1

/-- The three metrics returned by `forecast_accuracy_metrics`. -/
structure ForecastMetrics where
  MAE : ℚ
  RMSE_sq : ℚ
  MAPE : ℚ
deriving DecidableEq

/-- `forecast_accuracy_metrics`: mask out the zero-true points, compute MAE
and (squared) RMSE on the full arrays and MAPE on the masked arrays. -/
def forecast_accuracy_metrics (y_true y_pred : List ℚ) : ForecastMetrics :=
  let mask := boolMask y_true
  let ytm := applyMask y_true mask
  let ypm := applyMask y_pred mask
  { MAE := listMean ((y_true.zip y_pred).map fun p => |p.1 - p.2|),
    RMSE_sq := listMean ((y_true.zip y_pred).map fun p => (p.1 - p.2) ^ 2),
    MAPE := listMean ((ytm.zip ypm).map fun p => |(p.1 - p.2) / p.1|) * 100 }

/-- MAE as the specification words it: the mean absolute error over all
points of the paired series. -/
def maeSpec (pairs : List (ℚ × ℚ)) : ℚ :=
  listMean (pairs.map fun p => |p.1 - p.2|)

/-- Squared RMSE as the specification words it: the mean squared error over
all points of the paired series. -/
def mseSpec (pairs : List (ℚ × ℚ)) : ℚ :=
  listMean (pairs.map fun p => (p.1 - p.2) ^ 2)

/-- MAPE as the specification words it: the mean absolute percentage error
over exactly those points whose true value is nonzero. -/
def mapeSpec (pairs : List (ℚ × ℚ)) : ℚ :=
  listMean (((pairs.filter fun p => decide (p.1 ≠ 0)).map
    fun p => |(p.1 - p.2) / p.1|)) * 100

/-- Decidable equality of embedded qcut/scoring results, used to evaluate
concrete calls. -/
instance : DecidableEq (Except String (List RfmScored)) := fun a b =>
  match a, b with
  | .ok x, .ok y =>
      if h : x = y then isTrue (by rw [h])
      else isFalse fun hc => h (Except.ok.inj hc)
  | .error x, .error y =>
      if h : x = y then isTrue (by rw [h])
      else isFalse fun hc => h (Except.error.inj hc)
  | .ok _, .error _ => isFalse fun hc => Except.noConfusion hc
  | .error _, .ok _ => isFalse fun hc => Except.noConfusion hc

/-! ## Concrete sample inputs used by witnesses -/

/-- A concrete donor-draw record (a repeat donor: `firstRoll = 1/2 ≥ 0.30`). -/
def sampleDraws : DonorDraws :=
  ⟨30, "Male", "O+", "Mumbai", 1/2, 4, 1, 4, 2, 1/2, 0, 1/2⟩

/-- A second concrete donor-draw record (a deferred female donor:
`deferralRoll = 1/10 < 0.15`). -/
def sampleDraws2 : DonorDraws :=
  ⟨25, "Female", "A+", "Delhi", 1/10, 2, 2, 5, 3, 1/10, 2, 1/2⟩

/-! # Theorems -/

/-! ## Arithmetic facts about `pyInt` -/

/-- The executable `Rat.floor` agrees with the order-theoretic `⌊·⌋`. -/
theorem ratFloor_eq_intFloor (q : ℚ) : q.floor = ⌊q⌋ := by
  rw [Rat.floor_def', Rat.floor_def]

theorem pyInt_eq_floor {q : ℚ} (h : 0 ≤ q) : pyInt q = ⌊q⌋ := by
  simp [pyInt, h, ratFloor_eq_intFloor]

theorem pyInt_nonneg {q : ℚ} (h : 0 ≤ q) : 0 ≤ pyInt q := by
  rw [pyInt_eq_floor h]
  exact Int.floor_nonneg.mpr h

/-- A positive integer demand times a buffer factor that is at least one
truncates to at least the demand. -/
theorem le_pyInt_mul {dm : ℤ} {b : ℚ} (hd : 1 ≤ dm) (hb : 1 ≤ b) :
    dm ≤ pyInt ((dm : ℚ) * b) := by
  have hd0 : (0 : ℚ) ≤ (dm : ℚ) := by exact_mod_cast le_trans zero_le_one hd
  have hmul : (dm : ℚ) ≤ (dm : ℚ) * b := le_mul_of_one_le_right hd0 hb
  have hnn : (0 : ℚ) ≤ (dm : ℚ) * b := le_trans hd0 hmul
  rw [pyInt_eq_floor hnn]
  exact Int.le_floor.mpr hmul

/-- Every row emitted by `supplyRows` is `mkSupplyRow` of some demand value
from the input list and some pair of draws. -/
theorem mem_supplyRows {ds : List ℤ} {i : ℕ} {bs es : ℕ → ℚ} {row : SupplyRow}
    (h : row ∈ supplyRows ds i bs es) :
    ∃ d j, d ∈ ds ∧ row = mkSupplyRow d (bs j) (es j) := by
  induction ds generalizing i with
  | nil => simp [supplyRows] at h
  | cons d ds ih =>
    simp only [supplyRows, List.mem_cons] at h
    rcases h with h | h
    · exact ⟨d, i, by simp, h⟩
    · obtain ⟨d2, j, hd2, hrow⟩ := ih h
      exact ⟨d2, j, by simp [hd2], hrow⟩

/-- Claim C1, as stated by the specification, is false: no generated supply
row can have `supply_units < demand_units`.  The buffer factor drawn from
`[1.05, 1.20]` is at least 1, so `int(demand * buffer) ≥ demand` for every
integer demand `≥ 1` and every admissible draw. -/
theorem C1_counterexample :
    ¬ ∃ (demands : List ℤ) (buffers expiries : ℕ → ℚ) (row : SupplyRow),
        (∀ x ∈ demands, 1 ≤ x) ∧
        (∀ i, 21/20 ≤ buffers i ∧ buffers i ≤ 6/5) ∧
        row ∈ generate_supply_data demands buffers expiries ∧
        row.supply_units < row.demand_units := by
  rintro ⟨ds, bs, es, row, hd, hb, hmem, hlt⟩
  obtain ⟨d, j, hdm, rfl⟩ := mem_supplyRows hmem
  have hge : d ≤ (mkSupplyRow d (bs j) (es j)).supply_units :=
    le_pyInt_mul (hd d hdm) (le_trans (by norm_num) (hb j).1)
  exact absurd hge (not_le.mpr hlt)

/-- Claim C1 (amended): supply at least demand is guaranteed.  For every
supply row generated from daily-demand rows with integer
`demand_units ≥ 1`, and any buffer draws from `[1.05, 1.20]`,
`demand_units ≤ supply_units`. -/
theorem C1_supply_ge_demand (demands : List ℤ) (buffers expiries : ℕ → ℚ)
    (hd : ∀ x ∈ demands, 1 ≤ x) (hb : ∀ i, 21/20 ≤ buffers i) :
    ∀ row ∈ generate_supply_data demands buffers expiries,
      row.demand_units ≤ row.supply_units := by
  intro row hmem
  obtain ⟨d, j, hdm, rfl⟩ := mem_supplyRows hmem
  exact le_pyInt_mul (hd d hdm) (le_trans (by norm_num) (hb j))

theorem C1_supply_ge_demand_witness :
    (mkSupplyRow 10 (11/10) (1/50)).demand_units ≤
      (mkSupplyRow 10 (11/10) (1/50)).supply_units :=
  C1_supply_ge_demand [10] (fun _ => 11/10) (fun _ => 1/50) (by decide)
    (fun _ => by norm_num) (mkSupplyRow 10 (11/10) (1/50))
    (by simp [generate_supply_data, supplyRows])

/-- Claim C6: the supply-row formulas.  For a daily-demand row with integer
demand `d ≥ 1`, buffer draw `b ∈ [1.05, 1.20]` and expiry draw
`u ∈ [0.01, 0.05]`: `supply = ⌊d·b⌋`, `utilized = min supply d`,
`wasted = max 0 (supply − d) + ⌊supply·u⌋`, and consequently
`utilized ≤ supply`, `utilization_rate ∈ [0, 1]` and `wastage_rate ≥ 0`. -/
theorem C6_supply_row_formulas (d : ℤ) (b u : ℚ) (hd : 1 ≤ d)
    (hb1 : 21/20 ≤ b) (hb2 : b ≤ 6/5) (hu1 : 1/100 ≤ u) (hu2 : u ≤ 1/20) :
    (mkSupplyRow d b u).supply_units = ⌊(d : ℚ) * b⌋ ∧
    (mkSupplyRow d b u).utilized_units = min (mkSupplyRow d b u).supply_units d ∧
    (mkSupplyRow d b u).wasted_units =
      max 0 ((mkSupplyRow d b u).supply_units - d) +
        ⌊((mkSupplyRow d b u).supply_units : ℚ) * u⌋ ∧
    (mkSupplyRow d b u).utilized_units ≤ (mkSupplyRow d b u).supply_units ∧
    0 ≤ (mkSupplyRow d b u).utilization_rate ∧
    (mkSupplyRow d b u).utilization_rate ≤ 1 ∧
    0 ≤ (mkSupplyRow d b u).wastage_rate := by
  have hb : (1 : ℚ) ≤ b := le_trans (by norm_num) hb1
  have hd0 : (0 : ℚ) ≤ (d : ℚ) := by exact_mod_cast le_trans zero_le_one hd
  have hmul : (d : ℚ) ≤ (d : ℚ) * b := le_mul_of_one_le_right hd0 hb
  have hnn : (0 : ℚ) ≤ (d : ℚ) * b := le_trans hd0 hmul
  have hsd : d ≤ pyInt ((d : ℚ) * b) := le_pyInt_mul hd hb
  have hspos : (0 : ℤ) < pyInt ((d : ℚ) * b) :=
    lt_of_lt_of_le zero_lt_one (le_trans hd hsd)
  have hu0 : (0 : ℚ) ≤ u := le_trans (by norm_num) hu1
  have hsunn : (0 : ℚ) ≤ ((pyInt ((d : ℚ) * b) : ℤ) : ℚ) * u :=
    mul_nonneg (by exact_mod_cast le_of_lt hspos) hu0
  have hmin0 : (0 : ℤ) ≤ min (pyInt ((d : ℚ) * b)) d :=
    le_min (le_of_lt hspos) (le_trans zero_le_one hd)
  have hsq : (0 : ℚ) < ((pyInt ((d : ℚ) * b) : ℤ) : ℚ) := by exact_mod_cast hspos
  refine ⟨pyInt_eq_floor hnn, rfl, ?_, min_le_left _ _, ?_, ?_, ?_⟩
  · have hs : (mkSupplyRow d b u).supply_units = pyInt ((d : ℚ) * b) := rfl
    have hw : (mkSupplyRow d b u).wasted_units =
        max 0 (pyInt ((d : ℚ) * b) - d) +
          pyInt (((pyInt ((d : ℚ) * b) : ℤ) : ℚ) * u) := rfl
    rw [hw, hs, pyInt_eq_floor hsunn]
  · show (0 : ℚ) ≤ if 0 < pyInt ((d : ℚ) * b) then _ / _ else 0
    rw [if_pos hspos]
    exact div_nonneg (by exact_mod_cast hmin0) (le_of_lt hsq)
  · show (if 0 < pyInt ((d : ℚ) * b) then
        ((min (pyInt ((d : ℚ) * b)) d : ℤ) : ℚ) / ((pyInt ((d : ℚ) * b) : ℤ) : ℚ)
      else 0) ≤ 1
    rw [if_pos hspos]
    exact (div_le_one hsq).mpr (by exact_mod_cast min_le_left _ _)
  · show (0 : ℚ) ≤ if 0 < pyInt ((d : ℚ) * b) then _ / _ else 0
    rw [if_pos hspos]
    refine div_nonneg ?_ (le_of_lt hsq)
    have hw : (0 : ℤ) ≤ max 0 (pyInt ((d : ℚ) * b) - d) +
        pyInt (((pyInt ((d : ℚ) * b) : ℤ) : ℚ) * u) :=
      add_nonneg (le_max_left _ _) (pyInt_nonneg hsunn)
    exact_mod_cast hw

theorem C6_supply_row_formulas_witness :
    0 ≤ (mkSupplyRow 10 (11/10) (1/50)).wastage_rate :=
  (C6_supply_row_formulas 10 (11/10) (1/50) (by decide) (by norm_num)
    (by norm_num) (by norm_num) (by norm_num)).2.2.2.2.2.2

/-! ## Donor registry claims -/

/-- Every row of the donor registry is `mkDonor` of some index. -/
theorem mem_donorRegistry {n : ℤ} {draws : ℕ → DonorDraws} {now : ℤ}
    {r : DonorRecord} (h : r ∈ donorRegistryRecords n draws now) :
    ∃ i, r = mkDonor i (draws i) now := by
  simp only [donorRegistryRecords, List.mem_map] at h
  obtain ⟨i, _, hi⟩ := h
  exact ⟨i, hi.symm⟩

/-- An if-then-else over the two availability strings equals `"Available"`
exactly when its condition holds. -/
theorem avail_ite_iff {c : Prop} [Decidable c] :
    ((if c then "Available" else "Not Eligible") = "Available") ↔ c := by
  by_cases h : c
  · simp [h]
  · rw [if_neg h]
    exact iff_of_false (by decide) h

/-- Claim C4: for every donor record produced by `generate_donor_registry`,
`months_since_last_donation ≤ months_since_first_donation`,
`total_volume_cc = total_donations * 450`, and the availability status is
`"Available"` exactly when at least 56 days have elapsed since the stored
last-donation date. -/
theorem C4_donor_invariants (n : ℤ) (draws : ℕ → DonorDraws) (now : ℤ)
    (r : DonorRecord) (hr : r ∈ donorRegistryRecords n draws now) :
    r.months_since_last_donation ≤ r.months_since_first_donation ∧
    r.total_volume_cc = r.total_donations * 450 ∧
    (r.availability_status = "Available" ↔ 56 ≤ now - r.last_donation_date) := by
  obtain ⟨i, rfl⟩ := mem_donorRegistry hr
  refine ⟨?_, rfl, avail_ite_iff⟩
  by_cases hf : (draws i).firstRoll < 30/100
  · simp [mkDonor, hf]
  · simp only [mkDonor, if_neg hf]
    exact min_le_right _ _

theorem C4_donor_invariants_witness :
    (mkDonor 0 sampleDraws 20000).months_since_last_donation ≤
      (mkDonor 0 sampleDraws 20000).months_since_first_donation ∧
    (mkDonor 0 sampleDraws 20000).total_volume_cc =
      (mkDonor 0 sampleDraws 20000).total_donations * 450 ∧
    ((mkDonor 0 sampleDraws 20000).availability_status = "Available" ↔
      56 ≤ 20000 - (mkDonor 0 sampleDraws 20000).last_donation_date) :=
  C4_donor_invariants 1 (fun _ => sampleDraws) 20000
    (mkDonor 0 sampleDraws 20000) (by simp [donorRegistryRecords])

/-- The deferral reason picked by index is one of the seven fixed reasons. -/
theorem getD_deferral_mem :
    ∀ j : Fin 7, DEFERRAL_REASONS.getD j.1 "Low hemoglobin" ∈ DEFERRAL_REASONS := by
  decide

/-- Claim C10: a donor record produced by `generate_donor_registry` has a
non-null `deferral_reason` exactly when `has_deferral_history` is set;
without the flag the reason is `none`, with the flag it is one of the seven
fixed deferral reasons. -/
theorem C10_deferral_reason_iff (n : ℤ) (draws : ℕ → DonorDraws) (now : ℤ)
    (r : DonorRecord) (hr : r ∈ donorRegistryRecords n draws now) :
    (r.deferral_reason ≠ none ↔ r.has_deferral_history = true) ∧
    (r.has_deferral_history = false → r.deferral_reason = none) ∧
    (r.has_deferral_history = true →
      ∃ s ∈ DEFERRAL_REASONS, r.deferral_reason = some s) := by
  obtain ⟨i, rfl⟩ := mem_donorRegistry hr
  by_cases hdef : (draws i).deferralRoll < 15/100
  · refine ⟨by simp [mkDonor, hdef], by simp [mkDonor, hdef], fun _ => ?_⟩
    by_cases hov : (draws i).gender = "Female" ∧ (draws i).hemoRoll < 3/10
    · exact ⟨"Low hemoglobin", by decide, by simp [mkDonor, hdef, hov]⟩
    · exact ⟨DEFERRAL_REASONS.getD (draws i).deferralIdx.1 "Low hemoglobin",
        getD_deferral_mem _, by simp [mkDonor, hdef, hov]⟩
  · exact ⟨by simp [mkDonor, hdef], fun _ => by simp [mkDonor, hdef],
      fun h => by simp [mkDonor, hdef] at h⟩

theorem C10_deferral_reason_iff_witness :
    ((mkDonor 0 sampleDraws2 20000).deferral_reason ≠ none ↔
      (mkDonor 0 sampleDraws2 20000).has_deferral_history = true) ∧
    ((mkDonor 0 sampleDraws2 20000).has_deferral_history = false →
      (mkDonor 0 sampleDraws2 20000).deferral_reason = none) ∧
    ((mkDonor 0 sampleDraws2 20000).has_deferral_history = true →
      ∃ s ∈ DEFERRAL_REASONS,
        (mkDonor 0 sampleDraws2 20000).deferral_reason = some s) :=
  C10_deferral_reason_iff 1 (fun _ => sampleDraws2) 20000
    (mkDonor 0 sampleDraws2 20000) (by simp [donorRegistryRecords])

/-- Claim C5: byte-for-byte reproducibility fails.  With the very same
random draws (the same seed) and the same parameters, running the donor
generator one day later changes the stored registration and last-donation
dates, because the source derives them from `datetime.now()`; the two runs
therefore print different CSV bytes. -/
theorem C5_wall_clock_dependence :
    donorRegistryRecords 1 (fun _ => sampleDraws) 20000 ≠
      donorRegistryRecords 1 (fun _ => sampleDraws) 20001 := by
  intro h
  have h0 : (mkDonor 0 sampleDraws 20000).registration_date =
      (mkDonor 0 sampleDraws 20001).registration_date := by
    have := congrArg (fun l => (l.map DonorRecord.registration_date).headD 0) h
    simpa [donorRegistryRecords] using this
  simp [mkDonor, sampleDraws, pyInt] at h0

/-- Claim C8, as stated by the specification, is false at `n_donors = 0`:
`generate_donor_registry` performs no entry validation and returns an
empty table without raising. -/
theorem C8_counterexample :
    generate_donor_registry 0 (fun _ => sampleDraws) 20000 = .ok [] := rfl

/-- Claim C8 (amended): `generate_donor_registry` does not reject invalid
configuration: for every `n_donors ≤ 0` it silently returns an empty table
(`range(n_donors)` yields no iterations and no error path exists). -/
theorem C8_no_validation (n : ℤ) (draws : ℕ → DonorDraws) (now : ℤ)
    (hn : n ≤ 0) : generate_donor_registry n draws now = .ok [] := by
  have h0 : n.toNat = 0 := Int.toNat_of_nonpos hn
  simp [generate_donor_registry, donorRegistryRecords, h0]

theorem C8_no_validation_witness :
    generate_donor_registry (-5) (fun _ => sampleDraws2) 123 = .ok [] :=
  C8_no_validation (-5) (fun _ => sampleDraws2) 123 (by decide)

/-! ## Segmentation claim -/

/-- Claim C3: `assign_rfm_segment` computes exactly the priority decision
tree of the specification over (R, F); the M score never affects the
result; and the three sample points take the stated values. -/
theorem C3_segment_decision_tree (r f m m2 : ℤ)
    (hr1 : 1 ≤ r) (hr5 : r ≤ 5) (hf1 : 1 ≤ f) (hf5 : f ≤ 5) :
    assign_rfm_segment r f m = segmentSpec r f ∧
    assign_rfm_segment r f m = assign_rfm_segment r f m2 ∧
    assign_rfm_segment 4 1 m = "New" ∧
    assign_rfm_segment 5 5 m = "Champions" ∧
    assign_rfm_segment 1 1 m = "Hibernating" :=
  ⟨rfl, rfl, rfl, rfl, rfl⟩

theorem C3_segment_decision_tree_witness :
    assign_rfm_segment 4 1 3 = segmentSpec 4 1 ∧
    assign_rfm_segment 4 1 3 = assign_rfm_segment 4 1 5 ∧
    assign_rfm_segment 4 1 3 = "New" ∧
    assign_rfm_segment 5 5 3 = "Champions" ∧
    assign_rfm_segment 1 1 3 = "Hibernating" :=
  C3_segment_decision_tree 4 1 3 5 (by decide) (by decide) (by decide) (by decide)

/-! ## Demand time-series claim -/

/-- Claim C7: every row of the detailed demand table has an integer
`demand_units ≥ 1`: the per-(date, component) total is clamped by
`max(1, int(·))` and so is each per-blood-type split, so no step yields a
non-positive unit count. -/
theorem C7_demand_units_positive :
    (∀ (base : ℚ) (c : CalendarDay) (dr : ComponentDraws),
      1 ≤ componentDemand base c dr) ∧
    (∀ (days : List CalendarDay) (draws : CalendarDay → String → ComponentDraws),
      ∀ row ∈ generate_demand_detail days draws, 1 ≤ row.demand_units) := by
  constructor
  · intro base c dr
    exact le_max_left _ _
  · intro days draws row hrow
    simp only [generate_demand_detail, List.mem_flatMap, List.mem_map] at hrow
    obtain ⟨c, _, cb, _, bp, _, rfl⟩ := hrow
    exact le_max_left _ _

theorem C7_demand_units_positive_witness :
    1 ≤ ((generate_demand_detail [⟨0, 1, 1⟩]
      (fun _ _ => ⟨0, 1, 2, fun _ => 0⟩)).head (by decide)).demand_units :=
  C7_demand_units_positive.2 [⟨0, 1, 1⟩] (fun _ _ => ⟨0, 1, 2, fun _ => 0⟩) _
    (List.head_mem _)

/-! ## RFM scoring claim -/

theorem length_insertSorted (x : ℚ) (l : List ℚ) :
    (insertSorted x l).length = l.length + 1 := by
  induction l with
  | nil => rfl
  | cons y ys ih => by_cases h : x ≤ y <;> simp [insertSorted, h, ih]

theorem mem_insertSorted {a x : ℚ} {l : List ℚ} :
    a ∈ insertSorted x l ↔ a = x ∨ a ∈ l := by
  induction l with
  | nil => simp [insertSorted]
  | cons y ys ih =>
    by_cases h : x ≤ y
    · simp [insertSorted, h]
    · simp only [insertSorted, if_neg h, List.mem_cons, ih]
      tauto

theorem length_sortList (l : List ℚ) : (sortList l).length = l.length := by
  induction l with
  | nil => rfl
  | cons x xs ih => simp [sortList, length_insertSorted, ih]

theorem mem_sortList {a : ℚ} {l : List ℚ} : a ∈ sortList l ↔ a ∈ l := by
  induction l with
  | nil => simp [sortList]
  | cons x xs ih => simp [sortList, mem_insertSorted, ih]

/-- A quantile of a constant sample is that constant. -/
theorem quantileAt_const {s : List ℚ} {c : ℚ} (hne : s ≠ [])
    (hall : ∀ x ∈ s, x = c) (q : ℚ) (hq0 : 0 ≤ q) (hq1 : q ≤ 1) :
    quantileAt s q = c := by
  have hn : 0 < s.length := List.length_pos.mpr hne
  have hn1 : (0 : ℚ) ≤ (s.length : ℚ) - 1 := by
    have h1 : (1 : ℚ) ≤ (s.length : ℚ) := by exact_mod_cast hn
    linarith
  have hh : q * ((s.length : ℚ) - 1) ≤ (s.length : ℚ) - 1 :=
    mul_le_of_le_one_left hn1 hq1
  have hfl : ⌊q * ((s.length : ℚ) - 1)⌋ ≤ (s.length : ℤ) - 1 := by
    have hcast : ((s.length : ℚ) - 1) = (((s.length : ℤ) - 1 : ℤ) : ℚ) := by
      push_cast
      ring
    have := Int.floor_le_floor (le_of_le_of_eq hh hcast)
    rwa [Int.floor_intCast] at this
  have hlo : (⌊q * ((s.length : ℚ) - 1)⌋).toNat < s.length := by omega
  have ha : s.getD (⌊q * ((s.length : ℚ) - 1)⌋).toNat 0 = c := by
    rw [List.getD_eq_getElem s 0 hlo]
    exact hall _ (List.getElem_mem hlo)
  show s.getD (q * ((s.length : ℚ) - 1)).floor.toNat 0 +
      (q * ((s.length : ℚ) - 1) - (((q * ((s.length : ℚ) - 1)).floor.toNat : ℕ) : ℚ)) *
        (s.getD ((q * ((s.length : ℚ) - 1)).floor.toNat + 1)
            (s.getD (q * ((s.length : ℚ) - 1)).floor.toNat 0) -
          s.getD (q * ((s.length : ℚ) - 1)).floor.toNat 0) = c
  rw [ratFloor_eq_intFloor]
  rw [ha]
  have hb : s.getD ((⌊q * ((s.length : ℚ) - 1)⌋).toNat + 1) c = c := by
    rcases Nat.lt_or_ge ((⌊q * ((s.length : ℚ) - 1)⌋).toNat + 1) s.length with h2 | h2
    · rw [List.getD_eq_getElem s c h2]
      exact hall _ (List.getElem_mem h2)
    · exact List.getD_eq_default s c h2
  rw [hb]
  ring

/-- Deduplicating a constant edge list leaves a single edge. -/
theorem dedupAdj_replicate (n : ℕ) (c : ℚ) :
    dedupAdj (List.replicate (n + 1) c) = [c] := by
  induction n with
  | zero => rfl
  | succ k ih =>
    have h2 : List.replicate (k + 2) c = c :: c :: List.replicate k c := by
      simp [List.replicate_succ]
    rw [h2]
    show (if c = c then dedupAdj (c :: List.replicate k c)
          else c :: dedupAdj (c :: List.replicate k c)) = [c]
    rw [if_pos rfl]
    have h1 : c :: List.replicate k c = List.replicate (k + 1) c := by
      simp [List.replicate_succ]
    rw [h1, ih]

/-- A constant Recency column collapses the quantile edges, so the scoring
pipeline raises the pandas label-mismatch error. -/
theorem qcutCollapseAux (recency frequency monetary : List ℚ) (c : ℚ)
    (hne : recency ≠ []) (hconst : ∀ x ∈ recency, x = c) :
    calculate_rfm_scores recency frequency monetary =
      .error "Bin labels must be one fewer than the number of bin edges" := by
  have hsne : sortList recency ≠ [] := by
    intro h
    apply hne
    have hl := length_sortList recency
    rw [h] at hl
    exact List.length_eq_zero.mp hl.symm
  have hsall : ∀ x ∈ sortList recency, x = c := fun x hx =>
    hconst x (mem_sortList.mp hx)
  have hq : QUANTILES.map (quantileAt (sortList recency)) =
      List.replicate 6 c := by
    have e0 := quantileAt_const hsne hsall 0 (by norm_num) (by norm_num)
    have e1 := quantileAt_const hsne hsall (1/5) (by norm_num) (by norm_num)
    have e2 := quantileAt_const hsne hsall (2/5) (by norm_num) (by norm_num)
    have e3 := quantileAt_const hsne hsall (3/5) (by norm_num) (by norm_num)
    have e4 := quantileAt_const hsne hsall (4/5) (by norm_num) (by norm_num)
    have e5 := quantileAt_const hsne hsall 1 (by norm_num) (by norm_num)
    show [quantileAt (sortList recency) 0, quantileAt (sortList recency) (1/5),
          quantileAt (sortList recency) (2/5), quantileAt (sortList recency) (3/5),
          quantileAt (sortList recency) (4/5), quantileAt (sortList recency) 1] =
        List.replicate 6 c
    rw [e0, e1, e2, e3, e4, e5]
    rfl
  have hedges : dedupAdj (QUANTILES.map (quantileAt (sortList recency))) = [c] := by
    rw [hq]
    exact dedupAdj_replicate 5 c
  have hr : pdQcut recency [5, 4, 3, 2, 1] =
      .error "Bin labels must be one fewer than the number of bin edges" := by
    unfold pdQcut
    rw [hedges]
    rfl
  unfold calculate_rfm_scores
  rw [hr]
  rfl

/-- Claim C2 (amended): `calculate_rfm_scores` does not merge collapsed
quantile buckets.  On every non-empty input whose Recency column is
constant (so fewer than 5 distinct values), `pd.qcut` drops the duplicate
bin edges and, because explicit labels were passed, the call raises the
pandas label-mismatch `ValueError` instead of returning a scored table. -/
theorem C2_qcut_collapse (recency frequency monetary : List ℚ) (c : ℚ)
    (hne : recency ≠ []) (hconst : ∀ x ∈ recency, x = c) :
    calculate_rfm_scores recency frequency monetary =
      .error "Bin labels must be one fewer than the number of bin edges" :=
  qcutCollapseAux recency frequency monetary c hne hconst

/-- Claim C2, as stated by the specification, is false: on the non-empty
table whose Recency column is `[3, 3, 3, 3, 3]` (frequency and monetary
columns `[1..5]`), `calculate_rfm_scores` raises the pandas label-mismatch
error instead of returning a scored table. -/
theorem C2_counterexample :
    calculate_rfm_scores [3, 3, 3, 3, 3] [1, 2, 3, 4, 5] [1, 2, 3, 4, 5] =
      .error "Bin labels must be one fewer than the number of bin edges" :=
  qcutCollapseAux [3, 3, 3, 3, 3] [1, 2, 3, 4, 5] [1, 2, 3, 4, 5] 3
    (by simp) (by simp)

theorem C2_qcut_collapse_witness :
    calculate_rfm_scores [3, 3, 3] [1, 2] [7, 7] =
      .error "Bin labels must be one fewer than the number of bin edges" :=
  C2_qcut_collapse [3, 3, 3] [1, 2] [7, 7] 3 (by decide) (by decide)

/-! ## Forecast accuracy claim -/

theorem boolMask_cons (x : ℚ) (xs : List ℚ) :
    boolMask (x :: xs) = decide (x ≠ 0) :: boolMask xs := rfl

theorem applyMask_cons (x : ℚ) (xs : List ℚ) (b : Bool) (ms : List Bool) :
    applyMask (x :: xs) (b :: ms) =
      if b then x :: applyMask xs ms else applyMask xs ms := by
  cases b <;> simp [applyMask, List.filter_cons]

/-- Masking both series by `y_true != 0` and zipping is the same as zipping
first and filtering on a nonzero true component. -/
theorem applyMask_zip (yt yp : List ℚ) (h : yt.length = yp.length) :
    (applyMask yt (boolMask yt)).zip (applyMask yp (boolMask yt)) =
      (yt.zip yp).filter fun p => decide (p.1 ≠ 0) := by
  induction yt generalizing yp with
  | nil =>
    cases yp with
    | nil => rfl
    | cons b bs => simp at h
  | cons a as ih =>
    cases yp with
    | nil => simp at h
    | cons b bs =>
      have hlen : as.length = bs.length := by simpa using h
      by_cases ha : a = 0 <;>
        simp [boolMask_cons, applyMask_cons, ha, List.filter_cons, ih bs hlen]

/-- Claim C9: MAE and (squared) RMSE are means over all points of the two
series, while MAPE is the mean over exactly the points with nonzero true
value; prepending a zero-true point leaves MAPE unchanged but enters the
MAE mean. -/
theorem C9_metrics_index_sets (yt yp : List ℚ) (q : ℚ)
    (h : yt.length = yp.length) :
    (forecast_accuracy_metrics yt yp).MAE = maeSpec (yt.zip yp) ∧
    (forecast_accuracy_metrics yt yp).RMSE_sq = mseSpec (yt.zip yp) ∧
    (forecast_accuracy_metrics yt yp).MAPE = mapeSpec (yt.zip yp) ∧
    (forecast_accuracy_metrics (0 :: yt) (q :: yp)).MAPE =
      (forecast_accuracy_metrics yt yp).MAPE ∧
    (forecast_accuracy_metrics (0 :: yt) (q :: yp)).MAE =
      listMean (|(0 : ℚ) - q| :: (yt.zip yp).map fun p => |p.1 - p.2|) := by
  have hmape : ∀ (a b : List ℚ), a.length = b.length →
      (forecast_accuracy_metrics a b).MAPE = mapeSpec (a.zip b) := by
    intro a b hab
    show listMean (((applyMask a (boolMask a)).zip (applyMask b (boolMask a))).map
      fun p => |(p.1 - p.2) / p.1|) * 100 = mapeSpec (a.zip b)
    rw [applyMask_zip a b hab]
    rfl
  refine ⟨rfl, rfl, hmape yt yp h, ?_, rfl⟩
  rw [hmape (0 :: yt) (q :: yp) (by simp [h]), hmape yt yp h]
  simp [mapeSpec, List.filter_cons]

theorem C9_metrics_index_sets_witness :
    (forecast_accuracy_metrics [0, 1, 0, 2] [5, 1, 1, 1]).MAPE =
      (forecast_accuracy_metrics [1, 0, 2] [1, 1, 1]).MAPE :=
  (C9_metrics_index_sets [1, 0, 2] [1, 1, 1] 5 (by decide)).2.2.2.1

end BloodSupply
